import Mathlib

/-!
Verification of the cloud-gaming coordinator's session core
(`coordinator/app/webrtc/webrtc.go` and `coordinator/app/apps/apps.go`),
as a shallow embedding in Lean 4.

The embedding models:
* the single-shot exit latch (`sync.Once`) and the two code sites that
  fire it (the ICE connection-state handler and the health-check worker);
* the health-check counter dynamics (`addHealthCheck`);
* the `app-input` data-channel message handler (`addInputTrack`);
* the codec registry (`verbalCodecToMime`);
* the `startSession` allocation sequence and its error paths;
* the teardown callback `onExitCb` as an ordered action sequence;
* the signaling dispatch loop of `NewSession`;
* the deterministic execution of the health-check-expiry teardown path
  (worker goroutine calling `StopClient`, which sends on the unbuffered
  `closed` channel).
-/

namespace Coordinator

/-! ## WebRTC bridge: the exit latch

`WebRTC` holds `exitOnce sync.Once`.  Both terminal paths run
`w.exitOnce.Do(exitCb)`: the ICE state-change handler (for the states
Failed, Closed, Disconnected) and the health-check worker (on counter
expiry).  We model the latch as a pair (invocation count, fired flag) and
the fire sites as events. -/

/-- ICE connection states relevant to the handler installed in `StartClient`. -/
inductive ICEState
  | new
  | checking
  | connected
  | completed
  | failed
  | disconnected
  | closed
  deriving DecidableEq, Repr

/-- The condition of the second `if` in the `OnICEConnectionStateChange`
handler: `state == Failed || state == Closed || state == Disconnected`. -/
def isTerminalICE (s : ICEState) : Bool :=
  s = ICEState.failed || s = ICEState.closed || s = ICEState.disconnected

/-- Events that reach a fire site of the exit latch: an ICE state change
(which fires only when terminal) or the health-check expiry. -/
inductive BridgeEvent
  | iceChange (s : ICEState)
  | healthExpiry
  deriving DecidableEq, Repr

/-- Whether the event's code site executes `w.exitOnce.Do(exitCb)`. -/
def bridgeEventFires : BridgeEvent → Bool
  | BridgeEvent.iceChange s => isTerminalICE s
  | BridgeEvent.healthExpiry => true

/-- Latch state: number of times the callback body has run, and whether
`sync.Once` has already consumed its single shot. -/
structure LatchState where
  invocations : Nat
  fired : Bool
  deriving DecidableEq, Repr

/-- `sync.Once.Do`: runs the body only on the first call. -/
def latchDo (st : LatchState) : LatchState :=
  if st.fired then st else ⟨st.invocations + 1, true⟩

/-- One bridge event hitting the latch: the fire sites guard with the
event's condition, then call `exitOnce.Do`. -/
def latchStep (st : LatchState) (e : BridgeEvent) : LatchState :=
  if bridgeEventFires e then latchDo st else st

/-- A session starts with an untriggered latch and processes its terminal
events in whatever order they arrive. -/
def runLatch (evs : List BridgeEvent) : LatchState :=
  evs.foldl latchStep ⟨0, false⟩

/-! ## Codec registry (`verbalCodecToMime`) -/

def mimeTypeH264 : String := "video/H264"

def mimeTypeVP8 : String := "video/VP8"

/-- `verbalCodecToMime` from `webrtc.go`: `h264 → H264`, `vpx → VP8`,
default → VP8. -/
def verbalCodecToMime (vCodec : String) : String :=
  if vCodec = "h264" then mimeTypeH264
  else if vCodec = "vpx" then mimeTypeVP8
  else mimeTypeVP8

/-- The codec name `startSession` passes to `StartClient` is the literal
`"vpx"`. -/
def sessionVideoCodec : String := "vpx"

/-! ## Health check (`addHealthCheck`)

`missedHealthCheckCounts` starts at 0.  The worker goroutine, once per
iteration (spaced by a 2-second sleep), increments the counter and fires
the latch when it reaches `MaxMissedHealthCheck = 5`, then returns.  The
`health-check` data channel's `OnMessage` handler resets the counter
to 0.  We model the interleaving of worker ticks and inbound messages as
a list of events; once the worker has fired it is gone, so the state is
absorbing afterwards. -/

def MaxMissedHealthCheck : Nat := 5

/-- An observable event on the health-check plane: a worker tick or an
inbound message on the channel. -/
inductive HCEvent
  | tick
  | msg
  deriving DecidableEq, Repr

/-- `counter` is `missedHealthCheckCounts`; `fired` records that the
worker logged expiry and invoked the latched exit callback. -/
structure HCState where
  counter : Nat
  fired : Bool
  deriving DecidableEq, Repr

/-- One event.  After firing, the worker has returned (and holds the
mutex), so no further event changes the observable state. -/
def hcStep (st : HCState) (e : HCEvent) : HCState :=
  if st.fired then st
  else
    match e with
    | HCEvent.tick =>
        if st.counter + 1 = MaxMissedHealthCheck then ⟨st.counter + 1, true⟩
        else ⟨st.counter + 1, false⟩
    | HCEvent.msg => ⟨0, false⟩

/-- The health-check plane of a session, from its initial state. -/
def runHC (tr : List HCEvent) : HCState :=
  tr.foldl hcStep ⟨0, false⟩

/-! ## Input ingress (`addInputTrack`)

The `app-input` data channel's `OnMessage` handler unmarshals the raw
payload; on failure it logs and returns.  On success it executes
`w.eventChannel <- &msg` — a send on a buffered channel of capacity 100
(`make(chan *webrtc.Packet, 100)` in `startSession`), which blocks when
the buffer is full. -/

def inputQueueCapacity : Nat := 100

/-- What the `app-input` on-message handler does with one message. -/
inductive InputOutcome
  | dropped    -- unmarshal failed: logged, handler returns, nothing enqueued
  | enqueued   -- send completed into the buffered channel
  | blocked    -- buffer full: the send blocks the handler
  deriving DecidableEq, Repr

/-- The handler's behaviour given whether the payload parses and the
current number of buffered events in the input queue. -/
def inputMsgOutcome (parseOk : Bool) (queueLen : Nat) : InputOutcome :=
  if !parseOk then InputOutcome.dropped
  else if queueLen < inputQueueCapacity then InputOutcome.enqueued
  else InputOutcome.blocked

/-! ## `startSession` (apps.go): allocation sequence and error paths

`startSession` performs, in order: bind video UDP listener, extract its
port, bind audio UDP listener, extract its port, bind wine TCP listener,
extract its port, start the relayer, `startVM`, `NewWebRTC`,
`StartClient`, `sendOffer`.  Every error branch is `return nil, err`
with no `Close` call on any listener already bound. -/

/-- The successive fallible steps of `startSession`, in source order. -/
inductive StartStep
  | allocVideo
  | extractVideoPort
  | allocAudio
  | extractAudioPort
  | allocWine
  | extractWinePort
  | relayerStart
  | startVM
  | newWebRTC
  | startClient
  | sendOffer
  deriving DecidableEq, Repr

/-- Source order of the steps. -/
def startSteps : List StartStep :=
  [StartStep.allocVideo, StartStep.extractVideoPort,
   StartStep.allocAudio, StartStep.extractAudioPort,
   StartStep.allocWine, StartStep.extractWinePort,
   StartStep.relayerStart, StartStep.startVM,
   StartStep.newWebRTC, StartStep.startClient, StartStep.sendOffer]

/-- The socket a step binds, when it is an allocation step. -/
def socketBoundBy : StartStep → Option String
  | StartStep.allocVideo => some "videoListener"
  | StartStep.allocAudio => some "audioListener"
  | StartStep.allocWine => some "wineListener"
  | _ => none

/-- Outcome of one `startSession` attempt: whether it returned a session
handle, and which listening sockets are open when it returns.  (On
success ownership of the sockets passes to the session; on error the
claim under scrutiny is about this very list.) -/
structure StartResult where
  ok : Bool
  openSockets : List String
  startVMInvoked : Bool
  deriving DecidableEq, Repr

/-- Run the `startSession` step sequence, failing at `failAt` if that
step is reached (`none` = every step succeeds).  Mirrors the code: each
error branch logs and returns immediately; no branch closes a socket. -/
def startSessionModel (failAt : Option StartStep) : StartResult :=
  go startSteps [] false
where
  go : List StartStep → List String → Bool → StartResult
    | [], socks, vm => ⟨true, socks, vm⟩
    | s :: rest, socks, vm =>
        if failAt = some s then ⟨false, socks, vm⟩
        else
          let socks' := match socketBoundBy s with
            | some name => socks ++ [name]
            | none => socks
          let vm' := vm || s = StartStep.startVM
          go rest socks' vm'

/-! ## Teardown (`onExitCb` in `startSession`)

The exit callback body, in source order: `stopVM`, `StopClient`, close
`audioListener`, close `videoListener`, close `wineListener`, close
`videoStream`, close `audioStream`, close `inputStream`,
`relayer.Close()`. -/

inductive TeardownAction
  | stopSandbox
  | stopBridge
  | closeSocket (name : String)
  | closeQueue (name : String)
  | closeRelayer
  deriving DecidableEq, Repr

/-- The action sequence of `onExitCb`, read off the source. -/
def onExitCbActions : List TeardownAction :=
  [TeardownAction.stopSandbox,
   TeardownAction.stopBridge,
   TeardownAction.closeSocket "audioListener",
   TeardownAction.closeSocket "videoListener",
   TeardownAction.closeSocket "wineListener",
   TeardownAction.closeQueue "videoStream",
   TeardownAction.closeQueue "audioStream",
   TeardownAction.closeQueue "inputStream",
   TeardownAction.closeRelayer]

/-- The five spec phases, numbered: 1 sandbox, 2 bridge, 3 sockets,
4 queues, 5 relayer. -/
def teardownPhase : TeardownAction → Nat
  | TeardownAction.stopSandbox => 1
  | TeardownAction.stopBridge => 2
  | TeardownAction.closeSocket _ => 3
  | TeardownAction.closeQueue _ => 4
  | TeardownAction.closeRelayer => 5

/-! ## Signaling dispatch loop (`NewSession`)

`NewSession` reads frames in a loop.  A JSON parse failure logs and
`continue`s.  `START` reassigns `webrtcConn` from `startSession` (on
error the handle is set to `nil`).  `SDP` and `ICE` are skipped when the
handle is `nil`; otherwise they call `SetRemoteSDP` / `AddCandidate`.  A
`SetRemoteSDP` error additionally sets the handle to `nil`; an
`AddCandidate` error only logs.  Any other message type is ignored.  The
loop never invokes a previous session's teardown. -/

/-- One inbound frame, with the outcome of the fallible call it will
trigger baked in (`ok` = the call succeeds). -/
inductive WsMsg
  | malformed
  | start (ok : Bool)
  | sdp (ok : Bool)
  | ice (ok : Bool)
  | other
  deriving DecidableEq, Repr

/-- Observable state of one `NewSession` loop.  `handle` holds the id of
the session currently referenced by `webrtcConn`; `nextId` numbers the
sessions `startSession` creates; the counters record calls made. -/
structure LoopState where
  handle : Option Nat
  nextId : Nat
  startSessionCalls : Nat
  startVMCalls : Nat
  setRemoteSDPCalls : Nat
  addCandidateCalls : Nat
  parseErrors : Nat
  teardownCalls : Nat
  deriving DecidableEq, Repr

def initLoopState : LoopState := ⟨none, 0, 0, 0, 0, 0, 0, 0⟩

/-- One iteration of the `NewSession` read loop on one parsed frame. -/
def loopStep (st : LoopState) (m : WsMsg) : LoopState :=
  match m with
  | WsMsg.malformed =>
      ⟨st.handle, st.nextId, st.startSessionCalls, st.startVMCalls,
       st.setRemoteSDPCalls, st.addCandidateCalls, st.parseErrors + 1,
       st.teardownCalls⟩
  | WsMsg.start ok =>
      if ok then
        ⟨some st.nextId, st.nextId + 1, st.startSessionCalls + 1,
         st.startVMCalls + 1, st.setRemoteSDPCalls, st.addCandidateCalls,
         st.parseErrors, st.teardownCalls⟩
      else
        ⟨none, st.nextId, st.startSessionCalls + 1, st.startVMCalls,
         st.setRemoteSDPCalls, st.addCandidateCalls, st.parseErrors,
         st.teardownCalls⟩
  | WsMsg.sdp ok =>
      match st.handle with
      | none => st
      | some s =>
          if ok then
            ⟨some s, st.nextId, st.startSessionCalls, st.startVMCalls,
             st.setRemoteSDPCalls + 1, st.addCandidateCalls, st.parseErrors,
             st.teardownCalls⟩
          else
            ⟨none, st.nextId, st.startSessionCalls, st.startVMCalls,
             st.setRemoteSDPCalls + 1, st.addCandidateCalls, st.parseErrors,
             st.teardownCalls⟩
  | WsMsg.ice _ =>
      match st.handle with
      | none => st
      | some s =>
          ⟨some s, st.nextId, st.startSessionCalls, st.startVMCalls,
           st.setRemoteSDPCalls, st.addCandidateCalls + 1, st.parseErrors,
           st.teardownCalls⟩
  | WsMsg.other => st

/-- The `NewSession` loop over a sequence of inbound frames. -/
def runLoop (ms : List WsMsg) : LoopState :=
  ms.foldl loopStep initLoopState

/-! ## The health-check-expiry teardown path (`StopClient` and `closed`)

`StopClient` ends with `w.closed <- struct{}{}` — a send on the
*unbuffered* channel `closed` (`make(chan struct{})` in `NewWebRTC`).
The only receive from `closed` in the program is the worker goroutine's
`select` in `addHealthCheck`.  On expiry the worker itself runs
`w.exitOnce.Do(exitCb)`, so `onExitCb` — and hence `StopClient` — runs
*inside the worker goroutine*.  The send can therefore never pair with a
receive: the sole receiver is the sender.  We model this path as a
deterministic machine over the worker's program counter. -/

/-- Program counter of the worker goroutine once the counter has reached
`MaxMissedHealthCheck` and it enters `exitOnce.Do(onExitCb)`. -/
inductive ExpiryPC
  | fireLatch        -- about to run the exit callback body
  | stopVMStep       -- onExitCb: stopVM
  | connClose        -- StopClient: conn.Close()
  | inputTrackClose  -- StopClient: inputTrack.Close()
  | healthTrackClose -- StopClient: healthTrack.Close()
  | sendClosed       -- StopClient: w.closed <- struct\x7b\x7d, unbuffered
  | stopClientDone   -- StopClient returned
  | workerExited     -- worker goroutine returned
  deriving DecidableEq, Repr

/-- Deterministic step of the expiry path.  The send on `closed` blocks
forever: no other goroutine in the program receives from `closed`, and
the worker — the unique receiver — is the goroutine performing the
send. -/
def expiryStep : ExpiryPC → ExpiryPC
  | ExpiryPC.fireLatch => ExpiryPC.stopVMStep
  | ExpiryPC.stopVMStep => ExpiryPC.connClose
  | ExpiryPC.connClose => ExpiryPC.inputTrackClose
  | ExpiryPC.inputTrackClose => ExpiryPC.healthTrackClose
  | ExpiryPC.healthTrackClose => ExpiryPC.sendClosed
  | ExpiryPC.sendClosed => ExpiryPC.sendClosed
  | ExpiryPC.stopClientDone => ExpiryPC.workerExited
  | ExpiryPC.workerExited => ExpiryPC.workerExited

/-- The expiry path after `n` steps. -/
def expiryRun (n : Nat) : ExpiryPC :=
  Nat.iterate expiryStep n ExpiryPC.fireLatch

/-! ## Theorems -/

/-! ### C1: the exit latch fires the callback at most once -/

lemma latchStep_shape (st : LatchState) (e : BridgeEvent)
    (h : st = ⟨0, false⟩ ∨ st = ⟨1, true⟩) :
    latchStep st e = ⟨0, false⟩ ∨ latchStep st e = ⟨1, true⟩ := by
  rcases h with h | h <;> subst h <;> simp [latchStep, latchDo]

lemma foldl_latch_shape (evs : List BridgeEvent) (st : LatchState)
    (h : st = ⟨0, false⟩ ∨ st = ⟨1, true⟩) :
    evs.foldl latchStep st = ⟨0, false⟩ ∨ evs.foldl latchStep st = ⟨1, true⟩ := by
  induction evs generalizing st with
  | nil => simpa using h
  | cons e rest ih => exact ih (latchStep st e) (latchStep_shape st e h)

/-- C1: for every session, whatever sequence of ICE state changes and
health-check expiries hits the bridge's fire sites, the exit callback
body runs at most once — `sync.Once` latches the first terminal
transition. -/
theorem C1_exit_callback_at_most_once (evs : List BridgeEvent) :
    (runLatch evs).invocations ≤ 1 := by
  have h := foldl_latch_shape evs ⟨0, false⟩ (Or.inl rfl)
  rcases h with h | h <;> simp [runLatch, h]

/-! ### C5: input handler on a full queue blocks, it does not drop -/

/-- C5 counterexample: with the queue at capacity (100 buffered events)
and a well-formed message, the `app-input` on-message handler's channel
send blocks; it does not drop the event as the claim states. -/
theorem C5_full_queue_counterexample :
    inputMsgOutcome true inputQueueCapacity = InputOutcome.blocked ∧
    inputMsgOutcome true inputQueueCapacity ≠ InputOutcome.dropped := by
  decide

/-- C5 amended: a malformed message is logged and dropped without being
enqueued; a well-formed message is enqueued while the queue is below
capacity, and blocks the handler once the queue is full (no drop, no
log, no backpressure signal). -/
theorem C5_input_handler_behaviour :
    (∀ q : Nat, inputMsgOutcome false q = InputOutcome.dropped) ∧
    (∀ q : Nat, q < inputQueueCapacity →
      inputMsgOutcome true q = InputOutcome.enqueued) ∧
    (∀ q : Nat, inputQueueCapacity ≤ q →
      inputMsgOutcome true q = InputOutcome.blocked) := by
  refine ⟨fun q => rfl, fun q hq => ?_, fun q hq => ?_⟩
  · simp [inputMsgOutcome, hq]
  · simp [inputMsgOutcome, Nat.not_lt_of_le hq]

/-- C5 witness: concrete queue lengths exercising both hypotheses. -/
theorem C5_input_handler_behaviour_witness :
    (3 < inputQueueCapacity ∧
      inputMsgOutcome true 3 = InputOutcome.enqueued) ∧
    (inputQueueCapacity ≤ 100 ∧
      inputMsgOutcome true 100 = InputOutcome.blocked) :=
  ⟨⟨by decide, C5_input_handler_behaviour.2.1 3 (by decide)⟩,
   ⟨by decide, C5_input_handler_behaviour.2.2 100 (by decide)⟩⟩

/-! ### C6: teardown order -/

/-- C6: the exit callback performs exactly the five phases in the stated
order — sandbox stop, bridge stop, the three socket closes, the three
queue closes, relayer close — with the phase sequence monotone. -/
theorem C6_teardown_phase_order :
    onExitCbActions.map teardownPhase = [1, 2, 3, 3, 3, 4, 4, 4, 5] ∧
    List.Pairwise (· ≤ ·) (onExitCbActions.map teardownPhase) ∧
    onExitCbActions.head? = some TeardownAction.stopSandbox ∧
    onExitCbActions.getLast? = some TeardownAction.closeRelayer := by
  refine ⟨rfl, ?_, rfl, rfl⟩
  decide

/-! ### C9: the session path always yields a VP8 video track -/

/-- C9: `startSession` invokes `StartClient` with the fixed codec name
`"vpx"`, which `verbalCodecToMime` maps to `video/VP8`; indeed every
codec name other than `"h264"` maps to `video/VP8`, so the session path
can never produce an H264 track. -/
theorem C9_session_video_mime_is_vp8 :
    verbalCodecToMime sessionVideoCodec = mimeTypeVP8 ∧
    ∀ s : String, s ≠ "h264" → verbalCodecToMime s = mimeTypeVP8 := by
  refine ⟨rfl, fun s hs => ?_⟩
  unfold verbalCodecToMime
  rw [if_neg hs]
  split <;> rfl

/-- C9 witness: an arbitrary unrecognized codec name also yields VP8. -/
theorem C9_session_video_mime_is_vp8_witness :
    ("av1" : String) ≠ "h264" ∧ verbalCodecToMime "av1" = mimeTypeVP8 :=
  ⟨by decide, C9_session_video_mime_is_vp8.2 "av1" (by decide)⟩

/-! ### C3: error paths of `startSession` leak the bound listeners -/

/-- C3: evaluating the `startSession` step sequence at concrete failing
steps.  When the audio UDP bind fails, the function returns its error
with the video listener still open; when `startVM` or `StartClient`
fails, all three listeners remain open.  No error branch of
`startSession` closes any listener, contradicting the claim that every
already-allocated resource is released before the error return. -/
theorem C3_error_paths_leak_sockets :
    startSessionModel (some StartStep.allocAudio) =
      ⟨false, ["videoListener"], false⟩ ∧
    startSessionModel (some StartStep.extractAudioPort) =
      ⟨false, ["videoListener", "audioListener"], false⟩ ∧
    startSessionModel (some StartStep.startVM) =
      ⟨false, ["videoListener", "audioListener", "wineListener"], false⟩ ∧
    startSessionModel (some StartStep.startClient) =
      ⟨false, ["videoListener", "audioListener", "wineListener"], true⟩ := by
  refine ⟨rfl, rfl, rfl, rfl⟩

/-! ### C7: on the expiry path `StopClient` never returns -/

lemma expiryStep_not_done (pc : ExpiryPC)
    (h : pc ≠ ExpiryPC.stopClientDone ∧ pc ≠ ExpiryPC.workerExited) :
    expiryStep pc ≠ ExpiryPC.stopClientDone ∧
    expiryStep pc ≠ ExpiryPC.workerExited := by
  cases pc <;> simp_all [expiryStep]

/-- C7: the health-check-expiry teardown path.  The worker goroutine
runs the latched exit callback itself; `StopClient`'s unbuffered send on
`closed` has no counterpart receiver (the only receive is the select of
this very worker), so the execution reaches the send after five steps
and stays there forever: `StopClient` never returns and the worker never
exits, contradicting the claim for this teardown path. -/
theorem C7_expiry_path_stopclient_blocks :
    expiryRun 5 = ExpiryPC.sendClosed ∧
    ∀ n : Nat, expiryRun n ≠ ExpiryPC.stopClientDone ∧
      expiryRun n ≠ ExpiryPC.workerExited := by
  refine ⟨rfl, fun n => ?_⟩
  induction n with
  | zero => exact ⟨by decide, by decide⟩
  | succ k ih =>
      have h : expiryRun (k + 1) = expiryStep (expiryRun k) :=
        Function.iterate_succ_apply' expiryStep k ExpiryPC.fireLatch
      rw [h]
      exact expiryStep_not_done (expiryRun k) ih

/-! ### C8: a second START creates a fresh session without teardown -/

lemma loopStep_teardownCalls (st : LoopState) (m : WsMsg) :
    (loopStep st m).teardownCalls = st.teardownCalls := by
  cases m with
  | malformed => rfl
  | start ok => cases ok <;> rfl
  | sdp ok => cases h : st.handle <;> cases ok <;> simp [loopStep, h]
  | ice ok => cases h : st.handle <;> simp [loopStep, h]
  | other => rfl

lemma runLoop_no_teardown_aux (ms : List WsMsg) (st : LoopState) :
    (ms.foldl loopStep st).teardownCalls = st.teardownCalls := by
  induction ms generalizing st with
  | nil => rfl
  | cons m rest ih => rw [List.foldl_cons, ih, loopStep_teardownCalls]

/-- C8: with a session handle already installed (the session's id is
below the fresh-id counter), a successful second `START` invokes
`startSession` (hence fresh allocations and a new `startVM`) once more,
installs a handle to the brand-new session — distinct from the previous
one — and the loop performs no teardown of the previous session; indeed
the `NewSession` loop never invokes any teardown. -/
theorem C8_second_start_overwrites_without_teardown :
    (∀ (st : LoopState) (s : Nat), st.handle = some s → s < st.nextId →
      (loopStep st (WsMsg.start true)).handle = some st.nextId ∧
      st.nextId ≠ s ∧
      (loopStep st (WsMsg.start true)).startSessionCalls =
        st.startSessionCalls + 1 ∧
      (loopStep st (WsMsg.start true)).startVMCalls = st.startVMCalls + 1 ∧
      (loopStep st (WsMsg.start true)).teardownCalls = st.teardownCalls) ∧
    ∀ ms : List WsMsg, (runLoop ms).teardownCalls = 0 := by
  constructor
  · intro st s hh hs
    exact ⟨rfl, fun he => absurd (he ▸ hs) (lt_irrefl s), rfl, rfl, rfl⟩
  · intro ms
    exact runLoop_no_teardown_aux ms initLoopState

/-- C8 witness: the state after one successful START, receiving a second
successful START. -/
theorem C8_second_start_overwrites_without_teardown_witness :
    (runLoop [WsMsg.start true]).handle = some 0 ∧
    0 < (runLoop [WsMsg.start true]).nextId ∧
    (loopStep (runLoop [WsMsg.start true]) (WsMsg.start true)).handle =
      some (runLoop [WsMsg.start true]).nextId ∧
    (runLoop [WsMsg.start true]).nextId ≠ 0 ∧
    (loopStep (runLoop [WsMsg.start true]) (WsMsg.start true)).teardownCalls =
      (runLoop [WsMsg.start true]).teardownCalls := by
  have h := (C8_second_start_overwrites_without_teardown.1
    (runLoop [WsMsg.start true]) 0 rfl (by decide))
  exact ⟨rfl, by decide, h.1, h.2.1, h.2.2.2.2⟩

/-! ### C10: the nil-handle guard skips SDP/ICE messages -/

/-- C10: the loop starts with a nil handle, a failed START resets the
handle to nil, and with a nil handle an SDP or ICE message (whatever the
outcome its payload would have produced) leaves the loop state
completely unchanged: nothing is dispatched to the bridge and the read
loop continues. -/
theorem C10_nil_handle_skips_signaling :
    initLoopState.handle = none ∧
    (∀ st : LoopState, (loopStep st (WsMsg.start false)).handle = none) ∧
    ∀ (st : LoopState) (b : Bool), st.handle = none →
      loopStep st (WsMsg.sdp b) = st ∧ loopStep st (WsMsg.ice b) = st := by
  refine ⟨rfl, fun st => rfl, fun st b h => ⟨?_, ?_⟩⟩ <;> simp [loopStep, h]

/-- C10 witness: an SDP answer and an ICE candidate arriving before any
START are no-ops. -/
theorem C10_nil_handle_skips_signaling_witness :
    initLoopState.handle = none ∧
    loopStep initLoopState (WsMsg.sdp true) = initLoopState ∧
    loopStep initLoopState (WsMsg.ice true) = initLoopState := by
  have h := C10_nil_handle_skips_signaling.2.2 initLoopState true rfl
  exact ⟨rfl, h.1, h.2⟩

/-! ### C4: protocol-error handling in the signaling loop -/

/-- C4 counterexample: after a successful START and a rejected SDP
message, a subsequent well-formed SDP message is *not* dispatched to
`SetRemoteSDP` — the rejected SDP reset the handle to nil — refuting the
claim that subsequent SDP messages are still dispatched after a protocol
error. -/
theorem C4_sdp_error_counterexample :
    (runLoop [WsMsg.start true, WsMsg.sdp false, WsMsg.sdp true]).setRemoteSDPCalls
      = (runLoop [WsMsg.start true, WsMsg.sdp false]).setRemoteSDPCalls ∧
    (runLoop [WsMsg.start true, WsMsg.sdp false, WsMsg.sdp true]).setRemoteSDPCalls
      = 1 ∧
    (runLoop [WsMsg.start true, WsMsg.sdp false, WsMsg.sdp true]).handle = none := by
  refine ⟨rfl, rfl, rfl⟩

/-- C4 amended: with a live handle, a malformed frame is logged and
dropped with the handle intact, and a rejected ICE candidate is
dispatched, logged, and leaves the handle intact — in both cases a
subsequent SDP message still dispatches to `SetRemoteSDP`.  A rejected
SDP message, however, is dispatched but resets the handle to nil, so
subsequent SDP/ICE messages are skipped until the next successful
START. -/
theorem C4_protocol_error_dispatch (st : LoopState) (s : Nat)
    (hh : st.handle = some s) :
    (loopStep st WsMsg.malformed).handle = some s ∧
    (loopStep st WsMsg.malformed).parseErrors = st.parseErrors + 1 ∧
    (loopStep st (WsMsg.ice false)).handle = some s ∧
    (loopStep st (WsMsg.ice false)).addCandidateCalls =
      st.addCandidateCalls + 1 ∧
    (loopStep (loopStep st (WsMsg.ice false)) (WsMsg.sdp true)).setRemoteSDPCalls
      = st.setRemoteSDPCalls + 1 ∧
    (loopStep st (WsMsg.sdp false)).setRemoteSDPCalls =
      st.setRemoteSDPCalls + 1 ∧
    (loopStep st (WsMsg.sdp false)).handle = none := by
  refine ⟨?_, rfl, ?_, ?_, ?_, ?_, ?_⟩ <;> simp [loopStep, hh]

/-- C4 witness: the state right after a successful START. -/
theorem C4_protocol_error_dispatch_witness :
    (runLoop [WsMsg.start true]).handle = some 0 ∧
    (loopStep (runLoop [WsMsg.start true]) WsMsg.malformed).handle = some 0 ∧
    (loopStep (runLoop [WsMsg.start true]) (WsMsg.sdp false)).handle = none := by
  have h := C4_protocol_error_dispatch (runLoop [WsMsg.start true]) 0 rfl
  exact ⟨rfl, h.1, h.2.2.2.2.2.2⟩

/-! ### C2: health-check expiry fires iff five consecutive silent ticks -/

lemma hcStep_fired (st : HCState) (e : HCEvent) (h : st.fired = true) :
    hcStep st e = st := by
  simp [hcStep, h]

lemma foldl_hc_fired (tr : List HCEvent) (st : HCState) (h : st.fired = true) :
    tr.foldl hcStep st = st := by
  induction tr with
  | nil => rfl
  | cons e rest ih => rw [List.foldl_cons, hcStep_fired st e h]; exact ih

lemma hcStep_unfired_tick (c : Nat) :
    hcStep ⟨c, false⟩ HCEvent.tick =
      if c + 1 = MaxMissedHealthCheck then ⟨c + 1, true⟩ else ⟨c + 1, false⟩ :=
  rfl

lemma hcStep_unfired_msg (c : Nat) :
    hcStep ⟨c, false⟩ HCEvent.msg = ⟨0, false⟩ :=
  rfl

lemma hcStep_counter_lt (st : HCState) (e : HCEvent)
    (h : st.fired = false → st.counter < MaxMissedHealthCheck) :
    (hcStep st e).fired = false → (hcStep st e).counter < MaxMissedHealthCheck := by
  obtain ⟨c, f⟩ := st
  cases f with
  | true => intro hf; rw [hcStep_fired _ e rfl] at hf; exact Bool.noConfusion hf
  | false =>
      have hc : c < MaxMissedHealthCheck := h rfl
      cases e with
      | tick =>
          intro hf
          rw [hcStep_unfired_tick] at hf ⊢
          by_cases h5 : c + 1 = MaxMissedHealthCheck
          · rw [if_pos h5] at hf; exact Bool.noConfusion hf
          · rw [if_neg h5]
            show c + 1 < MaxMissedHealthCheck
            omega
      | msg =>
          intro _
          rw [hcStep_unfired_msg]
          have : (0 : Nat) < 5 := by decide
          exact this

lemma foldl_hc_counter_lt (tr : List HCEvent) (st : HCState)
    (h : st.fired = false → st.counter < MaxMissedHealthCheck) :
    (tr.foldl hcStep st).fired = false →
      (tr.foldl hcStep st).counter < MaxMissedHealthCheck := by
  induction tr generalizing st with
  | nil => exact h
  | cons e rest ih =>
      rw [List.foldl_cons]
      exact ih (hcStep st e) (hcStep_counter_lt st e h)

lemma foldl_five_ticks_fired (c : Nat) (hc : c < MaxMissedHealthCheck) :
    ((List.replicate MaxMissedHealthCheck HCEvent.tick).foldl hcStep
      ⟨c, false⟩).fired = true := by
  have hc' : c < 5 := hc
  interval_cases c <;> decide

lemma hc_fired_window : ∀ (tr : List HCEvent) (c : Nat),
    (tr.foldl hcStep ⟨c, false⟩).fired = true →
    (∃ pre r, tr = pre ++ List.replicate MaxMissedHealthCheck HCEvent.tick ++ r) ∨
    (∃ r, tr = List.replicate (MaxMissedHealthCheck - c) HCEvent.tick ++ r ∧
      c < MaxMissedHealthCheck) := by
  intro tr
  induction tr with
  | nil => intro c h; exact absurd h (by simp [List.foldl_nil])
  | cons e rest ih =>
      intro c h
      rw [List.foldl_cons] at h
      cases e with
      | tick =>
          by_cases h5 : c + 1 = MaxMissedHealthCheck
          · refine Or.inr ⟨rest, ?_, by omega⟩
            rw [show MaxMissedHealthCheck - c = 1 from by omega]
            rfl
          · rw [hcStep_unfired_tick, if_neg h5] at h
            rcases ih (c + 1) h with ⟨pre, r, hr⟩ | ⟨r, hr, hlt⟩
            · exact Or.inl ⟨HCEvent.tick :: pre, r, by simp [hr]⟩
            · refine Or.inr ⟨r, ?_, by omega⟩
              rw [show MaxMissedHealthCheck - c = (MaxMissedHealthCheck - (c + 1)) + 1
                    from by omega,
                  List.replicate_succ, hr]
              rfl
      | msg =>
          rw [hcStep_unfired_msg] at h
          rcases ih 0 h with ⟨pre, r, hr⟩ | ⟨r, hr, _⟩
          · exact Or.inl ⟨HCEvent.msg :: pre, r, by simp [hr]⟩
          · refine Or.inl ⟨[HCEvent.msg], r, ?_⟩
            rw [Nat.sub_zero] at hr
            simp [hr]

/-- C2: for every interleaving of worker ticks and inbound health-check
messages, the worker fires the (latched) exit callback iff the trace
contains `MaxMissedHealthCheck = 5` consecutive ticks with no inbound
message between them: the counter starts at 0, each tick increments it,
each message resets it to 0, and the expiry branch runs exactly when the
counter reaches 5. -/
theorem C2_expiry_iff_five_silent_ticks (tr : List HCEvent) :
    (runHC tr).fired = true ↔
      ∃ l r, tr = l ++ List.replicate MaxMissedHealthCheck HCEvent.tick ++ r := by
  constructor
  · intro h
    rcases hc_fired_window tr 0 h with ⟨pre, r, hr⟩ | ⟨r, hr, _⟩
    · exact ⟨pre, r, hr⟩
    · exact ⟨[], r, by simpa using hr⟩
  · rintro ⟨l, r, rfl⟩
    unfold runHC
    rw [List.foldl_append, List.foldl_append]
    have hbase : ∀ x : HCState, x.fired = false →
        x.counter < MaxMissedHealthCheck →
        ((List.replicate MaxMissedHealthCheck HCEvent.tick).foldl hcStep x).fired
          = true := by
      intro x hx hxc
      obtain ⟨c, f⟩ := x
      cases f with
      | true => exact Bool.noConfusion hx
      | false => exact foldl_five_ticks_fired c hxc
    cases hf : (l.foldl hcStep ⟨0, false⟩).fired with
    | false =>
        have hcnt := foldl_hc_counter_lt l ⟨0, false⟩ (fun _ => by decide) hf
        have h2 := hbase _ hf hcnt
        rw [foldl_hc_fired r _ h2]
        exact h2
    | true =>
        rw [foldl_hc_fired _ _ hf, foldl_hc_fired r _ hf]
        exact hf

end Coordinator
